import Mathlib

/-!
Shallow embedding of the concurrent endpoint-sampling and statistics-aggregation
engine of `enhanced_openapi_monitor.py` (class `EnhancedOpenAPIMonitor`).

Modelling conventions:
* Machine-level aspects that the verified properties do not depend on
  (wall-clock readings, HTTP transport, the JSON wire format, signal delivery)
  are abstracted into oracles (`Env`): `timeAt` gives the value of the k-th call
  to `time.time()` inside the loop, `flagAt` the value of `self.running` at the
  k-th read, `outcomeAt` the network outcome of the n-th probe, `connectivity`
  the result of the pre-session connectivity test per endpoint.
* The probe outcome of one HTTP call is one of: a received response (with its
  status code, reason phrase, body classification tag and measured latency),
  an `asyncio.TimeoutError`, or any other exception (connection error).  These
  are exactly the three paths of `make_sample_request`.
* Latencies and times are exact rationals.  The percentile indices
  `int(n * 0.95)` / `int(n * 0.99)` computed with Python doubles coincide with
  the exact floors `95*n/100` / `99*n/100` for every feasible collection size
  (the products round to doubles with the same floor), so they are embedded as
  exact natural-number division.
* The `defaultdict(int)` status-code histogram is embedded as the list of
  recorded status codes in recording order; the count of a code is its
  multiplicity in that list, and the sum of all histogram counts is the list's
  length.
* Python `sorted` is embedded as a stable ascending sort (`insertionSort`).
-/

namespace AnoMod

/-- Outcome of one HTTP probe attempt, as distinguished by the three paths of
`make_sample_request`: a received response (real status code, reason phrase,
body tag `json`/`text`/`error`, latency), a timeout, or any other exception. -/
inductive Outcome where
  | response (status : Nat) (reason : String) (bodyTag : String) (latency : ℚ)
  | timeout (latency : ℚ)
  | connError (msg : String) (latency : ℚ)
deriving DecidableEq

/-- The response record built by `make_sample_request` (one per probe attempt).
Fields that no verified property depends on (timestamps, headers, raw body,
content length/type) are omitted. -/
structure Record where
  endpoint : String
  method : String
  status_code : Nat
  status_text : String
  body_type : String
  latency_ms : ℚ
  error : Option String
deriving DecidableEq

/-- The aggregator state `self.stats`.  `status_codes` is the histogram,
embedded as the list of recorded codes (count of `c` = multiplicity of `c`). -/
structure Stats where
  total_requests : Nat
  successful_requests : Nat
  failed_requests : Nat
  status_codes : List Nat
  response_times : List ℚ
  errors : List String
deriving DecidableEq

/-- `self.stats` as initialised in `__init__`. -/
def initStats : Stats :=
  { total_requests := 0
    successful_requests := 0
    failed_requests := 0
    status_codes := []
    response_times := []
    errors := [] }

/-- Monitor state: the aggregator, `self.responses`, the durable log file
`openapi_responses.jsonl` (as the list of appended records), plus ghost
instrumentation recording the observable schedule: each inter-round sleep's
duration, each round's (sample size, dispatched count), and how many times
`generate_reports` ran. -/
structure MState where
  stats : Stats
  responses : List Record
  logFile : List Record
  sleeps : List ℚ
  rounds : List (Nat × Nat)
  reportCount : Nat
deriving DecidableEq

/-- The monitor state at session start. -/
def initState : MState :=
  { stats := initStats
    responses := []
    logFile := []
    sleeps := []
    rounds := []
    reportCount := 0 }

/-- `pat` starts the character list `l`. -/
def charsLeadWith : List Char → List Char → Bool
  | [], _ => true
  | _ :: _, [] => false
  | a :: ps, b :: ls => a = b && charsLeadWith ps ls

/-- `pat` occurs contiguously inside `l`. -/
def charsContain (pat : List Char) : List Char → Bool
  | [] => pat.isEmpty
  | b :: ls => charsLeadWith pat (b :: ls) || charsContain pat ls

/-- `pat` occurs as a substring of `s` (Python's `x in endpoint`). -/
def containsSub (s pat : String) : Bool :=
  charsContain pat.data s.data

/-- Line 104: `'POST' if any(x in endpoint for x in [...]) else 'GET'`. -/
def requestMethod (endpoint : String) : String :=
  if ["register", "login", "compose", "upload", "follow", "unfollow"].any
      (fun x => containsSub endpoint x)
  then "POST" else "GET"

/-- `make_sample_request` (lines 98-229): issues one probe and converts every
outcome into a record; it also updates `self.stats` in place (lines 171-179 on
the response path, 200-203 on timeout, 224-227 on any other exception).  It
never raises: the `try` body's failures are caught by the two `except` arms.
Returns the record and the updated monitor state. -/
def make_sample_request (endpoint : String) (o : Outcome) (st : MState) :
    Record × MState :=
  let method := requestMethod endpoint
  match o with
  | .response status reason bodyTag latency =>
      let r : Record :=
        { endpoint := endpoint
          method := method
          status_code := status
          status_text := reason
          body_type := bodyTag
          latency_ms := latency
          error := none }
      let s := st.stats
      let s' : Stats :=
        { s with
          total_requests := s.total_requests + 1
          status_codes := s.status_codes ++ [status]
          response_times := s.response_times ++ [latency]
          successful_requests :=
            if 200 ≤ status ∧ status < 400 then s.successful_requests + 1
            else s.successful_requests
          failed_requests :=
            if 200 ≤ status ∧ status < 400 then s.failed_requests
            else s.failed_requests + 1 }
      (r, { st with stats := s' })
  | .timeout latency =>
      let r : Record :=
        { endpoint := endpoint
          method := method
          status_code := 408
          status_text := "Request Timeout"
          body_type := "error"
          latency_ms := latency
          error := some "timeout" }
      let s := st.stats
      let s' : Stats :=
        { s with
          total_requests := s.total_requests + 1
          failed_requests := s.failed_requests + 1
          errors := s.errors ++ ["timeout"] }
      (r, { st with stats := s' })
  | .connError msg latency =>
      let r : Record :=
        { endpoint := endpoint
          method := method
          status_code := 0
          status_text := "Connection Error"
          body_type := "error"
          latency_ms := latency
          error := some msg }
      let s := st.stats
      let s' : Stats :=
        { s with
          total_requests := s.total_requests + 1
          failed_requests := s.failed_requests + 1
          errors := s.errors ++ [msg] }
      (r, { st with stats := s' })

/-- Lines 292-298 of the round loop: a settled record is appended to
`self.responses` and written to the durable log. -/
def recordResponse (r : Record) (st : MState) : MState :=
  { st with
    responses := st.responses ++ [r]
    logFile := st.logFile ++ [r] }

/-- One settled probe as processed by the round loop: execute the request,
then persist and collect its record (`make_sample_request` always returns a
record — a `dict` — so the `isinstance(response_data, dict)` guard never
drops one). -/
def probe (endpoint : String) (o : Outcome) (st : MState) : MState :=
  let p := make_sample_request endpoint o st
  recordResponse p.1 p.2

/-- A completed round over the dispatched endpoint/outcome pairs. -/
def runRound (ps : List (String × Outcome)) (st : MState) : MState :=
  ps.foldl (fun st p => probe p.1 p.2 st) st

/-- The fixed endpoint registry `self.endpoints` (lines 36-49). -/
def endpoints : List String :=
  [ "http://localhost:8080/wrk2-api/user/register"
  , "http://localhost:8080/wrk2-api/user/follow"
  , "http://localhost:8080/wrk2-api/user/unfollow"
  , "http://localhost:8080/wrk2-api/user/login"
  , "http://localhost:8080/wrk2-api/post/compose"
  , "http://localhost:8080/wrk2-api/home-timeline/read"
  , "http://localhost:8080/wrk2-api/user-timeline/read"
  , "http://localhost:8080/wrk2-api/user/profile"
  , "http://localhost:8080/wrk2-api/media/upload"
  , "http://localhost:8080/wrk2-api/text/upload"
  , "http://localhost:8080/wrk2-api/url/shorten"
  , "http://localhost:8080/wrk2-api/user-mention/upload" ]

/-- Session configuration (`duration`, `sample_interval` constructor args;
both are `int`-typed CLI arguments).  Clock readings are abstracted as exact
integers: the verified properties depend only on their ordering. -/
structure Config where
  duration : ℤ
  sample_interval : ℚ
deriving DecidableEq

/-- Environment oracles abstracting the machine: `connectivity e` is the
connectivity-probe verdict for endpoint `e`; `flagAt k` is the value of
`self.running` at its k-th read inside `monitor_responses`; `timeAt t` is the
t-th `time.time()` reading (index 0 is `self.start_time`); `outcomeAt n` is
the network outcome of the n-th dispatched probe of the session. -/
structure Env where
  connectivity : String → Bool
  flagAt : Nat → Bool
  timeAt : Nat → ℤ
  outcomeAt : Nat → Outcome

/-- `test_endpoint_connectivity` (lines 82-96): one bounded-timeout GET per
configured endpoint; an exception marks the endpoint unreachable and never
propagates.  Returns the insertion-ordered endpoint → reachable mapping. -/
def test_endpoint_connectivity (env : Env) : List (String × Bool) :=
  endpoints.map (fun e => (e, env.connectivity e))

/-- Line 260: `[ep for ep, connected in connectivity.items() if connected]`. -/
def activeOf (env : Env) : List String :=
  ((test_endpoint_connectivity env).filter (fun p => p.2)).map (fun p => p.1)

/-- The task-building loop (lines 281-286): before each endpoint of the
round's sample, `self.running` is read; on the first `false` the loop breaks,
dispatching no further endpoint of this round.  `k` is the index of the next
flag read; returns the dispatched endpoints and the next unused flag index. -/
def collectTasks (flagAt : Nat → Bool) : Nat → List String → List String × Nat
  | k, [] => ([], k)
  | k, e :: es =>
    if flagAt k then
      let p := collectTasks flagAt (k + 1) es
      (e :: p.1, p.2)
    else ([], k + 1)

/-- The outcomes fed to one round's dispatched endpoints: probe number `n0` is
the session-wide probe counter (`stats.total_requests`) at round start. -/
def roundProbes (outcomeAt : Nat → Outcome) (n0 : Nat) (ds : List String) :
    List (String × Outcome) :=
  ds.zip ((List.range ds.length).map (fun i => outcomeAt (n0 + i)))

/-- The body of one round-loop iteration (lines 278-302): take the sample
`active_endpoints[:min(5, len(active_endpoints))]`; build the task list
reading the flag before each endpoint; settle every dispatched probe (append
each record to `self.responses` and the durable log); read the flag once more
and, when it is still set, sleep the full `sample_interval`
(`await asyncio.sleep(self.sample_interval)` — the sleep itself never reads
the flag and always lasts the whole interval).  The ghost `rounds` entry
records (sample size, dispatched count); the ghost `sleeps` entry records the
sleep's duration.  Returns the next flag-read index and the new state. -/
def roundBody (env : Env) (cfg : Config) (active : List String) (k : Nat)
    (st : MState) : Nat × MState :=
  let sample := active.take (min 5 active.length)
  let dk := collectTasks env.flagAt (k + 1) sample
  let st1 := runRound (roundProbes env.outcomeAt st.stats.total_requests dk.1) st
  let st2 := { st1 with rounds := st1.rounds ++ [(sample.length, dk.1.length)] }
  if env.flagAt dk.2 then
    (dk.2 + 1, { st2 with sleeps := st2.sleeps ++ [cfg.sample_interval] })
  else
    (dk.2 + 1, st2)

/-- The round loop of `monitor_responses` (lines 277-302), fuel-indexed.
Each iteration: read the clock (index `t`) and — only if the deadline has not
passed — the running flag (index `k`; the `and` in
`while time.time() < end_time and self.running` short-circuits); when both
pass, run `roundBody` and continue.  Returns `none` when the fuel runs out
before the loop exits. -/
def monitorLoop (env : Env) (cfg : Config) (endTime : ℤ) (active : List String) :
    Nat → Nat → Nat → MState → Option MState
  | 0, _, _, _ => none
  | fuel + 1, k, t, st =>
    if env.timeAt t < endTime then
      if env.flagAt k then
        let p := roundBody env cfg active k st
        monitorLoop env cfg endTime active fuel p.1 (t + 1) p.2
      else some st
    else some st

/-- The latency summary of `generate_reports` (lines 322-332). -/
structure LatencyStats where
  min_ms : ℚ
  max_ms : ℚ
  mean_ms : ℚ
  median_ms : ℚ
  p95_ms : ℚ
  p99_ms : ℚ
deriving DecidableEq

/-- Lines 322-332: the latency statistics block.  Empty input yields the empty
dict (`none` here); otherwise the list is sorted ascending and min/max/mean and
the index-based median/p95/p99 are taken.  `int(n * 0.95)` and `int(n * 0.99)`
(Python doubles) agree with the exact floors `95*n/100` and `99*n/100` for all
feasible `n`, so the indices are embedded with exact natural division.  The
`getD` default is never reached: every index is `< n` (proved below). -/
def latency_stats (response_times : List ℚ) : Option LatencyStats :=
  if response_times.isEmpty then none
  else
    let times := List.insertionSort (· ≤ ·) response_times
    some
      { min_ms := times.min?.getD 0
        max_ms := times.max?.getD 0
        mean_ms := times.sum / (times.length : ℚ)
        median_ms := times.getD (times.length / 2) 0
        p95_ms := times.getD (times.length * 95 / 100) 0
        p99_ms := times.getD (times.length * 99 / 100) 0 }

/-- The `statistics` and `error_summary` blocks of the summary report
(lines 343-356), plus the latency block. -/
structure Summary where
  total_requests : Nat
  successful_requests : Nat
  failed_requests : Nat
  success_rate_percent : ℚ
  latency_statistics : Option LatencyStats
  total_errors : Nat
  unique_errors : Nat
deriving DecidableEq

/-- Line 347: `successful / max(1, total) * 100` — the `max` guard prevents a
zero divisor when no requests were made. -/
def success_rate_percent (s : Stats) : ℚ :=
  (s.successful_requests : ℚ) / ((max 1 s.total_requests : Nat) : ℚ) * 100

/-- Sum of all histogram counts: `sum(self.stats['status_codes'].values())`
(line 367).  In the multiset embedding this is the sum, over the distinct
recorded codes, of each code's multiplicity. -/
def histSum (codes : List Nat) : Nat :=
  (codes.dedup.map (fun c => codes.count c)).sum

/-- Lines 364-370: the `status_code_distribution.csv` rows — one row
`(status_code, count, percentage)` per observed code, keys sorted ascending,
percentage against the histogram total, `0` when the total is zero. -/
def csvRows (s : Stats) : List (Nat × Nat × ℚ) :=
  let total := histSum s.status_codes
  (List.insertionSort (· ≤ ·) s.status_codes.dedup).map
    (fun c =>
      (c, s.status_codes.count c,
        if 0 < total then (s.status_codes.count c : ℚ) / (total : ℚ) * 100
        else 0))

/-- `generate_reports` (lines 318-397), as the pure contents of the summary
report and the CSV table it writes.  It is a total function of the final
monitor state: no division is unguarded and the empty state is handled. -/
def generate_reports (st : MState) : Summary × List (Nat × Nat × ℚ) :=
  ( { total_requests := st.stats.total_requests
      successful_requests := st.stats.successful_requests
      failed_requests := st.stats.failed_requests
      success_rate_percent := success_rate_percent st.stats
      latency_statistics := latency_stats st.stats.response_times
      total_errors := st.stats.errors.length
      unique_errors := st.stats.errors.dedup.length }
  , csvRows st.stats )

/-- `monitor_responses` (lines 253-316): read the start time, run the
connectivity test, and if no endpoint is reachable log the fatal condition and
`return` — note this path reaches neither the round loop nor the
`generate_reports()` call at line 314.  Otherwise run the round loop and then
generate the reports exactly once.  `none` means the fuel bound was hit before
the loop exited (the loop itself need not terminate for adversarial clocks). -/
def monitor_responses (env : Env) (cfg : Config) (fuel : Nat) : Option MState :=
  let startTime := env.timeAt 0
  let active := activeOf env
  if active.isEmpty then
    some initState
  else
    match monitorLoop env cfg (startTime + cfg.duration) active fuel 0 1 initState with
    | none => none
    | some st => some { st with reportCount := st.reportCount + 1 }

/-- The probe received an HTTP response (as opposed to timing out or failing
to connect). -/
def isReceived : Outcome → Bool
  | .response _ _ _ _ => true
  | _ => false

/-- The probe outcome is counted as successful by lines 176-179:
a received response whose status lies in `[200, 400)`. -/
def isOk : Outcome → Bool
  | .response s _ _ _ => decide (200 ≤ s ∧ s < 400)
  | _ => false

/-- Record classification "success": built on the response path, which leaves
the `error` field unset. -/
def classifiedResponse (r : Record) : Prop := r.error = none

/-- Record classification "timeout": the sentinel fields written on the
`asyncio.TimeoutError` path (lines 184-199). -/
def classifiedTimeout (r : Record) : Prop :=
  r.status_code = 408 ∧ r.status_text = "Request Timeout" ∧ r.error = some "timeout"

/-- Record classification "connection error": the sentinel fields written on
the generic `except Exception` path (lines 208-223). -/
def classifiedConnErr (r : Record) : Prop :=
  r.status_code = 0 ∧ r.status_text = "Connection Error" ∧ r.error ≠ none

/-- Environment in which the connectivity probe finds no endpoint reachable. -/
def envDead : Env :=
  { connectivity := fun _ => false
    flagAt := fun _ => true
    timeAt := fun _ => 0
    outcomeAt := fun _ => .timeout 1 }

/-- Environment with every endpoint reachable, the running flag never
cleared, and a constant clock. -/
def envAll : Env :=
  { connectivity := fun _ => true
    flagAt := fun _ => true
    timeAt := fun _ => 0
    outcomeAt := fun _ => .timeout 1 }

/-- Environment in which the running flag is cleared (by a signal) right
after the first endpoint of the first round has been dispatched: flag reads
number 0 (loop condition) and 1 (before the first dispatch) see `true`, every
later read sees `false`. -/
def envC9 : Env :=
  { connectivity := fun _ => true
    flagAt := fun k => decide (k < 2)
    timeAt := fun t => (t : ℤ)
    outcomeAt := fun _ => .response 200 "OK" "json" 10 }

/-- Environment driving exactly one full round followed by one inter-round
sleep: flag always set, clock advancing by one per read. -/
def envSleep : Env :=
  { connectivity := fun _ => true
    flagAt := fun _ => true
    timeAt := fun t => (t : ℤ)
    outcomeAt := fun _ => .response 200 "OK" "json" 10 }

/-- Zero-duration session configuration. -/
def cfg0 : Config := { duration := 0, sample_interval := 2 }

/-- A long session configuration. -/
def cfg100 : Config := { duration := 100, sample_interval := 2 }

/-- Two-second session with a 7-unit sampling interval. -/
def cfg27 : Config := { duration := 2, sample_interval := 7 }

/-- The final state of the zero-duration session of `envAll`: the round loop
exits immediately on its deadline; only the report counter moved. -/
def stW : MState := (monitor_responses envAll cfg0 1).getD initState

/-- The final state of the `envSleep`/`cfg27` session: one full round of five
dispatched probes, one full-length sleep, then deadline exit. -/
def stSleep : MState := (monitor_responses envSleep cfg27 2).getD initState

/-! ### Helper lemmas about one probe -/

theorem msr_ghost (ep : String) (o : Outcome) (st : MState) :
    (make_sample_request ep o st).2.responses = st.responses ∧
    (make_sample_request ep o st).2.logFile = st.logFile ∧
    (make_sample_request ep o st).2.sleeps = st.sleeps ∧
    (make_sample_request ep o st).2.rounds = st.rounds ∧
    (make_sample_request ep o st).2.reportCount = st.reportCount := by
  cases o <;> simp [make_sample_request]

theorem msr_total (ep : String) (o : Outcome) (st : MState) :
    (make_sample_request ep o st).2.stats.total_requests
      = st.stats.total_requests + 1 := by
  cases o <;> simp [make_sample_request]

theorem msr_successful (ep : String) (o : Outcome) (st : MState) :
    (make_sample_request ep o st).2.stats.successful_requests
      = st.stats.successful_requests + (if isOk o then 1 else 0) := by
  cases o with
  | response s reason bodyTag lat =>
      by_cases h : 200 ≤ s ∧ s < 400 <;> simp [make_sample_request, isOk, h]
  | timeout lat => simp [make_sample_request, isOk]
  | connError msg lat => simp [make_sample_request, isOk]

theorem msr_failed (ep : String) (o : Outcome) (st : MState) :
    (make_sample_request ep o st).2.stats.failed_requests
      = st.stats.failed_requests + (if isOk o then 0 else 1) := by
  cases o with
  | response s reason bodyTag lat =>
      by_cases h : 200 ≤ s ∧ s < 400 <;> simp [make_sample_request, isOk, h]
  | timeout lat => simp [make_sample_request, isOk]
  | connError msg lat => simp [make_sample_request, isOk]

theorem msr_codes_len (ep : String) (o : Outcome) (st : MState) :
    (make_sample_request ep o st).2.stats.status_codes.length
      = st.stats.status_codes.length + (if isReceived o then 1 else 0) := by
  cases o <;> simp [make_sample_request, isReceived]

theorem msr_times_len (ep : String) (o : Outcome) (st : MState) :
    (make_sample_request ep o st).2.stats.response_times.length
      = st.stats.response_times.length + (if isReceived o then 1 else 0) := by
  cases o <;> simp [make_sample_request, isReceived]

theorem probe_stats (ep : String) (o : Outcome) (st : MState) :
    (probe ep o st).stats = (make_sample_request ep o st).2.stats := by
  simp [probe, recordResponse]

theorem probe_ghost (ep : String) (o : Outcome) (st : MState) :
    (probe ep o st).sleeps = st.sleeps ∧
    (probe ep o st).rounds = st.rounds ∧
    (probe ep o st).reportCount = st.reportCount := by
  have h := msr_ghost ep o st
  simp [probe, recordResponse, h.2.2.1, h.2.2.2.1, h.2.2.2.2]

theorem probe_log_len (ep : String) (o : Outcome) (st : MState) :
    (probe ep o st).logFile.length = st.logFile.length + 1 := by
  have h := msr_ghost ep o st
  simp [probe, recordResponse, h.2.1]

theorem probe_resp_len (ep : String) (o : Outcome) (st : MState) :
    (probe ep o st).responses.length = st.responses.length + 1 := by
  have h := msr_ghost ep o st
  simp [probe, recordResponse, h.1]

/-! ### Helper lemmas about a completed round -/

theorem runRound_cons (p : String × Outcome) (ps : List (String × Outcome))
    (st : MState) : runRound (p :: ps) st = runRound ps (probe p.1 p.2 st) :=
  rfl

theorem runRound_log_len (ps : List (String × Outcome)) :
    ∀ st : MState, (runRound ps st).logFile.length
      = st.logFile.length + ps.length := by
  induction ps with
  | nil => intro st; simp [runRound]
  | cons p ps ih =>
      intro st
      rw [runRound_cons, ih, probe_log_len]
      simp [Nat.add_assoc, Nat.add_comm 1 ps.length]

theorem runRound_resp_len (ps : List (String × Outcome)) :
    ∀ st : MState, (runRound ps st).responses.length
      = st.responses.length + ps.length := by
  induction ps with
  | nil => intro st; simp [runRound]
  | cons p ps ih =>
      intro st
      rw [runRound_cons, ih, probe_resp_len]
      simp [Nat.add_assoc, Nat.add_comm 1 ps.length]

theorem runRound_ghost (ps : List (String × Outcome)) :
    ∀ st : MState,
      (runRound ps st).sleeps = st.sleeps ∧
      (runRound ps st).rounds = st.rounds ∧
      (runRound ps st).reportCount = st.reportCount := by
  induction ps with
  | nil => intro st; simp [runRound]
  | cons p ps ih =>
      intro st
      rw [runRound_cons]
      have h := probe_ghost p.1 p.2 st
      have h' := ih (probe p.1 p.2 st)
      exact ⟨h'.1.trans h.1, h'.2.1.trans h.2.1, h'.2.2.trans h.2.2⟩

theorem runRound_total (ps : List (String × Outcome)) :
    ∀ st : MState, (runRound ps st).stats.total_requests
      = st.stats.total_requests + ps.length := by
  induction ps with
  | nil => intro st; simp [runRound]
  | cons p ps ih =>
      intro st
      rw [runRound_cons, ih, probe_stats, msr_total]
      simp [Nat.add_assoc, Nat.add_comm 1 ps.length]

theorem runRound_codes_len (ps : List (String × Outcome)) :
    ∀ st : MState, (runRound ps st).stats.status_codes.length
      = st.stats.status_codes.length + ps.countP (fun p => isReceived p.2) := by
  induction ps with
  | nil => intro st; simp [runRound]
  | cons p ps ih =>
      intro st
      rw [runRound_cons, ih, probe_stats, msr_codes_len, List.countP_cons]
      cases h : isReceived p.2
      · simp [h]
      · simp [h]
        omega

theorem runRound_times_len (ps : List (String × Outcome)) :
    ∀ st : MState, (runRound ps st).stats.response_times.length
      = st.stats.response_times.length + ps.countP (fun p => isReceived p.2) := by
  induction ps with
  | nil => intro st; simp [runRound]
  | cons p ps ih =>
      intro st
      rw [runRound_cons, ih, probe_stats, msr_times_len, List.countP_cons]
      cases h : isReceived p.2
      · simp [h]
      · simp [h]
        omega

theorem runRound_inv (ps : List (String × Outcome)) :
    ∀ st : MState,
      st.stats.total_requests
        = st.stats.successful_requests + st.stats.failed_requests →
      (runRound ps st).stats.total_requests
        = (runRound ps st).stats.successful_requests
          + (runRound ps st).stats.failed_requests := by
  induction ps with
  | nil => intro st h; simpa [runRound] using h
  | cons p ps ih =>
      intro st h
      rw [runRound_cons]
      refine ih _ ?_
      rw [probe_stats, msr_total, msr_successful, msr_failed]
      cases isOk p.2 <;> simp <;> omega

/-! ### Helper lemmas about the round loop -/

theorem collectTasks_len_le (flagAt : Nat → Bool) :
    ∀ (es : List String) (k : Nat),
      (collectTasks flagAt k es).1.length ≤ es.length := by
  intro es
  induction es with
  | nil => intro k; simp [collectTasks]
  | cons e es ih =>
      intro k
      by_cases h : flagAt k = true
      · simpa [collectTasks, h] using ih (k + 1)
      · simp [collectTasks, h]

theorem roundProbes_length (outcomeAt : Nat → Outcome) (n0 : Nat)
    (ds : List String) : (roundProbes outcomeAt n0 ds).length = ds.length := by
  simp [roundProbes]

theorem roundBody_spec (env : Env) (cfg : Config) (active : List String)
    (k : Nat) (st : MState) :
    ((roundBody env cfg active k st).2.sleeps = st.sleeps ∨
      (roundBody env cfg active k st).2.sleeps
        = st.sleeps ++ [cfg.sample_interval]) ∧
    (∃ sz d : Nat, d ≤ sz ∧
      (roundBody env cfg active k st).2.rounds = st.rounds ++ [(sz, d)] ∧
      (roundBody env cfg active k st).2.logFile.length
        = st.logFile.length + d) ∧
    (roundBody env cfg active k st).2.reportCount = st.reportCount := by
  unfold roundBody
  set sample := active.take (min 5 active.length) with hsample
  set dk := collectTasks env.flagAt (k + 1) sample with hdk
  have hg := runRound_ghost
    (roundProbes env.outcomeAt st.stats.total_requests dk.1) st
  have hlog := runRound_log_len
    (roundProbes env.outcomeAt st.stats.total_requests dk.1) st
  rw [roundProbes_length] at hlog
  have hdle : dk.1.length ≤ sample.length := by
    rw [hdk]; exact collectTasks_len_le env.flagAt sample (k + 1)
  by_cases hs : env.flagAt dk.2 = true
  · rw [if_pos hs]
    exact ⟨Or.inr (by simp [hg.1]),
      ⟨sample.length, dk.1.length, hdle, by simp [hg.2.1], by simpa using hlog⟩,
      by simpa using hg.2.2⟩
  · rw [if_neg hs]
    exact ⟨Or.inl (by simp [hg.1]),
      ⟨sample.length, dk.1.length, hdle, by simp [hg.2.1], by simpa using hlog⟩,
      by simpa using hg.2.2⟩

theorem monitorLoop_ghost (env : Env) (cfg : Config) (endTime : ℤ)
    (active : List String) :
    ∀ (fuel k t : Nat) (st st' : MState),
      monitorLoop env cfg endTime active fuel k t st = some st' →
      (∀ d ∈ st'.sleeps, d ∈ st.sleeps ∨ d = cfg.sample_interval) ∧
      st'.logFile.length + (st.rounds.map (fun r => r.2)).sum
        = st.logFile.length + (st'.rounds.map (fun r => r.2)).sum ∧
      (∀ r ∈ st'.rounds, r ∈ st.rounds ∨ r.2 ≤ r.1) ∧
      st'.reportCount = st.reportCount := by
  intro fuel
  induction fuel with
  | zero => intro k t st st' h; simp [monitorLoop] at h
  | succ fuel ih =>
      intro k t st st' h
      rw [monitorLoop] at h
      by_cases ht : env.timeAt t < endTime
      · rw [if_pos ht] at h
        by_cases hk : env.flagAt k = true
        · rw [if_pos hk] at h
          have hb := roundBody_spec env cfg active k st
          obtain ⟨hsl, ⟨sz, d, hdle, hrounds, hlog⟩, hreport⟩ := hb
          have hrec := ih (roundBody env cfg active k st).1 (t + 1)
            (roundBody env cfg active k st).2 st' h
          refine ⟨?_, ?_, ?_, ?_⟩
          · intro x hx
            rcases hrec.1 x hx with hmem | heq
            · rcases hsl with hsl | hsl
              · rw [hsl] at hmem; exact Or.inl hmem
              · rw [hsl] at hmem
                rcases List.mem_append.1 hmem with hmem | hmem
                · exact Or.inl hmem
                · exact Or.inr (List.mem_singleton.1 hmem)
            · exact Or.inr heq
          · have h2 := hrec.2.1
            rw [hrounds] at h2
            simp only [List.map_append, List.sum_append, List.map_cons,
              List.map_nil, List.sum_cons, List.sum_nil] at h2
            rw [hlog] at h2
            omega
          · intro r hr
            rcases hrec.2.2.1 r hr with hmem | hle
            · rw [hrounds] at hmem
              rcases List.mem_append.1 hmem with hmem | hmem
              · exact Or.inl hmem
              · right
                rw [List.mem_singleton.1 hmem]
                exact hdle
            · exact Or.inr hle
          · exact hrec.2.2.2.trans hreport
        · rw [if_neg hk] at h
          cases h
          exact ⟨fun d hd => Or.inl hd, rfl, fun r hr => Or.inl hr, rfl⟩
      · rw [if_neg ht] at h
        cases h
        exact ⟨fun d hd => Or.inl hd, rfl, fun r hr => Or.inl hr, rfl⟩

/-! ### Helper lemmas about sorted-list extrema -/

theorem foldl_min_eq_left :
    ∀ (t : List ℚ) (a : ℚ), (∀ x ∈ t, a ≤ x) → t.foldl min a = a := by
  intro t
  induction t with
  | nil => intro a h; rfl
  | cons b t ih =>
      intro a h
      have hab : a ≤ b := h b (by simp)
      rw [List.foldl_cons, min_eq_left hab]
      exact ih a (fun x hx => h x (by simp [hx]))

theorem sorted_minD (l : List ℚ) (h : l.Sorted (· ≤ ·)) :
    l.min?.getD 0 = l.getD 0 0 := by
  cases l with
  | nil => rfl
  | cons a t =>
      rw [List.min?_cons', foldl_min_eq_left t a (List.rel_of_sorted_cons h)]
      rfl

theorem foldl_max_sorted :
    ∀ (t : List ℚ) (a : ℚ), (a :: t).Sorted (· ≤ ·) →
      t.foldl max a = (a :: t).getLast (List.cons_ne_nil a t) := by
  intro t
  induction t with
  | nil => intro a _; rfl
  | cons b t ih =>
      intro a h
      have hab : a ≤ b := List.rel_of_sorted_cons h b (by simp)
      rw [List.foldl_cons, max_eq_right hab, ih b h.of_cons]
      exact (List.getLast_cons (List.cons_ne_nil b t)).symm

theorem sorted_maxD (l : List ℚ) (h : l.Sorted (· ≤ ·)) :
    l.max?.getD 0 = l.getD (l.length - 1) 0 := by
  cases l with
  | nil => rfl
  | cons a t =>
      rw [List.max?_cons', foldl_max_sorted t a h,
        List.getLast_eq_getElem, List.getD_eq_getElem (a :: t) 0 (by simp)]
      rfl

/-! ### Claim theorems -/

/-- C2: for every completed round, the number of records appended to the
durable log (and to `self.responses`) equals the number of endpoints
dispatched in that round, whatever each probe's outcome — no probe's record
is dropped. -/
theorem round_appends_one_record_per_dispatch
    (outcomeAt : Nat → Outcome) (n0 : Nat) (ds : List String) (st : MState) :
    (runRound (roundProbes outcomeAt n0 ds) st).logFile.length
        = st.logFile.length + ds.length ∧
    (runRound (roundProbes outcomeAt n0 ds) st).responses.length
        = st.responses.length + ds.length := by
  constructor
  · rw [runRound_log_len, roundProbes_length]
  · rw [runRound_resp_len, roundProbes_length]

/-- C3: `make_sample_request` returns (never raises) exactly one record per
probe, classified as exactly one of response/timeout/connection-error, with
the sentinel fields 408/"Request Timeout"/error "timeout" on timeout,
0/"Connection Error" on any other failure, and the real HTTP status code on a
received response. -/
theorem probe_record_classification (ep : String) (st : MState) :
    (∀ lat : ℚ,
      (make_sample_request ep (.timeout lat) st).1.status_code = 408 ∧
      (make_sample_request ep (.timeout lat) st).1.status_text
        = "Request Timeout" ∧
      (make_sample_request ep (.timeout lat) st).1.error = some "timeout") ∧
    (∀ (msg : String) (lat : ℚ),
      (make_sample_request ep (.connError msg lat) st).1.status_code = 0 ∧
      (make_sample_request ep (.connError msg lat) st).1.status_text
        = "Connection Error" ∧
      (make_sample_request ep (.connError msg lat) st).1.error = some msg) ∧
    (∀ (s : Nat) (reason bodyTag : String) (lat : ℚ),
      (make_sample_request ep (.response s reason bodyTag lat) st).1.status_code
        = s ∧
      (make_sample_request ep (.response s reason bodyTag lat) st).1.error
        = none) ∧
    (∀ o : Outcome,
      (classifiedResponse (make_sample_request ep o st).1 ∧
        ¬classifiedTimeout (make_sample_request ep o st).1 ∧
        ¬classifiedConnErr (make_sample_request ep o st).1) ∨
      (¬classifiedResponse (make_sample_request ep o st).1 ∧
        classifiedTimeout (make_sample_request ep o st).1 ∧
        ¬classifiedConnErr (make_sample_request ep o st).1) ∨
      (¬classifiedResponse (make_sample_request ep o st).1 ∧
        ¬classifiedTimeout (make_sample_request ep o st).1 ∧
        classifiedConnErr (make_sample_request ep o st).1)) := by
  refine ⟨fun lat => by simp [make_sample_request],
    fun msg lat => by simp [make_sample_request],
    fun s reason bodyTag lat => by simp [make_sample_request],
    fun o => ?_⟩
  cases o with
  | response s reason bodyTag lat =>
      left
      simp [make_sample_request, classifiedResponse, classifiedTimeout,
        classifiedConnErr]
  | timeout lat =>
      right; left
      simp [make_sample_request, classifiedResponse, classifiedTimeout,
        classifiedConnErr]
  | connError msg lat =>
      right; right
      simp [make_sample_request, classifiedResponse, classifiedTimeout,
        classifiedConnErr]

/-- C10: each probe increments `total_requests` by exactly one and exactly
one of `successful_requests` (received status in [200,400)) or
`failed_requests` (anything else) by exactly one; hence after any sequence of
probes from the initial state, `total_requests` equals
`successful_requests + failed_requests`. -/
theorem stats_counter_invariant :
    (∀ (ep : String) (o : Outcome) (st : MState),
      (make_sample_request ep o st).2.stats.total_requests
        = st.stats.total_requests + 1 ∧
      (make_sample_request ep o st).2.stats.successful_requests
        = st.stats.successful_requests + (if isOk o then 1 else 0) ∧
      (make_sample_request ep o st).2.stats.failed_requests
        = st.stats.failed_requests + (if isOk o then 0 else 1)) ∧
    ∀ ps : List (String × Outcome),
      (runRound ps initState).stats.total_requests
        = (runRound ps initState).stats.successful_requests
          + (runRound ps initState).stats.failed_requests :=
  ⟨fun ep o st => ⟨msr_total ep o st, msr_successful ep o st, msr_failed ep o st⟩,
   fun ps => runRound_inv ps initState rfl⟩

/-- C4 counterexample: a single timed-out probe from the initial state leaves
the histogram and the latency list empty while `total_requests` is 1, so the
histogram's counts do not sum to `total_requests` and the latency list's
length does not equal it. -/
theorem timeout_probe_skips_histogram :
    histSum (runRound [("http://localhost:8080/wrk2-api/user/register",
        Outcome.timeout 5)] initState).stats.status_codes = 0 ∧
    (runRound [("http://localhost:8080/wrk2-api/user/register",
        Outcome.timeout 5)] initState).stats.response_times.length = 0 ∧
    (runRound [("http://localhost:8080/wrk2-api/user/register",
        Outcome.timeout 5)] initState).stats.total_requests = 1 ∧
    (0 : Nat) ≠ 1 := by
  refine ⟨by decide, by decide, by decide, by decide⟩

/-- C4 amended: after any sequence of probe outcomes, the histogram's counts
sum to the number of probes that received an HTTP response, and the latency
list's length equals that same number (`total_requests` counts every probe);
timeouts and connection errors contribute neither a histogram entry nor a
latency. -/
theorem histogram_latencies_track_received (ps : List (String × Outcome)) :
    histSum (runRound ps initState).stats.status_codes
      = ps.countP (fun p => isReceived p.2) ∧
    (runRound ps initState).stats.response_times.length
      = ps.countP (fun p => isReceived p.2) ∧
    (runRound ps initState).stats.total_requests = ps.length := by
  refine ⟨?_, ?_, ?_⟩
  · rw [histSum, List.sum_map_count_dedup_eq_length, runRound_codes_len]
    simp [initState, initStats]
  · rw [runRound_times_len]
    simp [initState, initStats]
  · rw [runRound_total]
    simp [initState, initStats]

/-- C8 counterexample: `make_sample_request` does not leave the aggregator
statistics unchanged — a single timed-out probe changes `self.stats`. -/
theorem request_mutates_statistics :
    (make_sample_request "http://localhost:8080/wrk2-api/user/register"
        (Outcome.timeout 5) initState).2.stats ≠ initState.stats := by
  decide

/-- C8 amended: `make_sample_request` itself updates the aggregator
statistics (incrementing `total_requests`), while the response list and the
durable log are untouched by it — appending the record to `self.responses`
and the log remains the round loop's responsibility. -/
theorem request_updates_stats_not_log (ep : String) (o : Outcome) (st : MState) :
    (make_sample_request ep o st).2.responses = st.responses ∧
    (make_sample_request ep o st).2.logFile = st.logFile ∧
    (make_sample_request ep o st).2.stats.total_requests
      = st.stats.total_requests + 1 :=
  ⟨(msr_ghost ep o st).1, (msr_ghost ep o st).2.1, msr_total ep o st⟩

/-- C1 counterexample: when the connectivity probe finds no reachable
endpoint, `monitor_responses` returns at line 264 before the
`generate_reports()` call at line 314 — the session terminates with zero
report generations, not one. -/
theorem dead_probe_skips_report_generation :
    (monitor_responses envDead cfg0 1).map (fun s => s.reportCount) = some 0 ∧
    (0 : Nat) ≠ 1 :=
  ⟨by decide, by decide⟩

/-- C1 amended: whenever at least one endpoint is reachable, every exit of
`monitor_responses` (deadline expiry or cancellation) generates the reports
exactly once; the zero-reachable-endpoints path, by contrast, exits before
report generation (see the counterexample). -/
theorem reports_once_when_some_endpoint_reachable
    (env : Env) (cfg : Config) (fuel : Nat) (st : MState)
    (hactive : (activeOf env).isEmpty = false)
    (hrun : monitor_responses env cfg fuel = some st) :
    st.reportCount = 1 := by
  rw [monitor_responses] at hrun
  simp only [hactive, Bool.false_eq_true, if_false] at hrun
  cases hloop : monitorLoop env cfg (env.timeAt 0 + cfg.duration)
      (activeOf env) fuel 0 1 initState with
  | none => rw [hloop] at hrun; cases hrun
  | some st0 =>
      rw [hloop] at hrun
      have hghost := (monitorLoop_ghost env cfg (env.timeAt 0 + cfg.duration)
        (activeOf env) fuel 0 1 initState st0 hloop).2.2.2
      cases hrun
      simp only [initState] at hghost
      simp [hghost]

/-- C1 witness: with every endpoint reachable and a zero-length deadline, the
session exits on its first deadline check and produces the reports once. -/
theorem reports_once_witness :
    (activeOf envAll).isEmpty = false ∧
    monitor_responses envAll cfg0 1 = some stW ∧ stW.reportCount = 1 :=
  ⟨by decide, by decide,
    reports_once_when_some_endpoint_reachable envAll cfg0 1 stW
      (by decide) (by decide)⟩

/-- C9 counterexample: clearing the running flag right after the first
dispatch of a round makes the started round dispatch only 1 of its 5 sampled
endpoints and skips the sleep — the flag is observed (and honoured) between
dispatches inside a round, not only at round boundaries and during the
inter-round sleep. -/
theorem cancellation_honoured_mid_dispatch :
    (monitor_responses envC9 cfg100 3).map (fun s => (s.rounds, s.sleeps))
      = some ([(5, 1)], []) ∧
    (1 : Nat) ≠ 5 :=
  ⟨by decide, by decide⟩

/-- C9 amended: the running flag is read at each round boundary, before each
dispatch inside a round, and once before the inter-round sleep; the sleep,
once begun, always lasts the full `sample_interval` (it is not interruptible
by the flag); every dispatched probe settles and contributes exactly one log
record (the log's length equals the sum of the per-round dispatched counts,
each of which is at most the round's sample size). -/
theorem sleep_uninterruptible_and_rounds_settle
    (env : Env) (cfg : Config) (fuel : Nat) (st : MState)
    (hrun : monitor_responses env cfg fuel = some st) :
    (∀ d ∈ st.sleeps, d = cfg.sample_interval) ∧
    st.logFile.length = (st.rounds.map (fun r => r.2)).sum ∧
    ∀ r ∈ st.rounds, r.2 ≤ r.1 := by
  rw [monitor_responses] at hrun
  by_cases hactive : (activeOf env).isEmpty = true
  · simp only [hactive, if_true] at hrun
    cases hrun
    exact ⟨fun d hd => absurd hd (by simp [initState]),
      by simp [initState], fun r hr => absurd hr (by simp [initState])⟩
  · simp only [hactive, if_false] at hrun
    cases hloop : monitorLoop env cfg (env.timeAt 0 + cfg.duration)
        (activeOf env) fuel 0 1 initState with
    | none => rw [hloop] at hrun; cases hrun
    | some st0 =>
        rw [hloop] at hrun
        have hghost := monitorLoop_ghost env cfg (env.timeAt 0 + cfg.duration)
          (activeOf env) fuel 0 1 initState st0 hloop
        cases hrun
        refine ⟨?_, ?_, ?_⟩
        · intro d hd
          rcases hghost.1 d hd with hmem | heq
          · exact absurd hmem (by simp [initState])
          · exact heq
        · have := hghost.2.1
          simpa [initState] using this
        · intro r hr
          rcases hghost.2.2.1 r hr with hmem | hle
          · exact absurd hmem (by simp [initState])
          · exact hle

/-- C9 amended witness: a session that runs one full round (5 dispatches, 5
log records) and one sleep of the configured interval. -/
theorem sleep_uninterruptible_witness :
    monitor_responses envSleep cfg27 2 = some stSleep ∧
    ((∀ d ∈ stSleep.sleeps, d = cfg27.sample_interval) ∧
     stSleep.logFile.length = (stSleep.rounds.map (fun r => r.2)).sum ∧
     ∀ r ∈ stSleep.rounds, r.2 ≤ r.1) :=
  ⟨by decide,
    sleep_uninterruptible_and_rounds_settle envSleep cfg27 2 stSleep (by decide)⟩

/-- C5: for every non-empty latency collection the summary's statistics are
taken over the ascending-sorted list: min is its first element, max its last,
mean the sum over n, median the element at index n / 2 (integer division),
p95 at index ⌊n * 0.95⌋ = 95 * n / 100, p99 at index ⌊n * 0.99⌋ = 99 * n / 100,
with no interpolation and every index strictly below n. -/
theorem latency_summary_indexing (lat : List ℚ) (hlat : lat ≠ []) :
    ∃ s, latency_stats lat = some s ∧
      (List.insertionSort (· ≤ ·) lat).Sorted (· ≤ ·) ∧
      (List.insertionSort (· ≤ ·) lat).length = lat.length ∧
      lat.length / 2 < lat.length ∧
      lat.length * 95 / 100 < lat.length ∧
      lat.length * 99 / 100 < lat.length ∧
      s.min_ms = (List.insertionSort (· ≤ ·) lat).getD 0 0 ∧
      s.max_ms = (List.insertionSort (· ≤ ·) lat).getD (lat.length - 1) 0 ∧
      s.mean_ms = lat.sum / (lat.length : ℚ) ∧
      s.median_ms = (List.insertionSort (· ≤ ·) lat).getD (lat.length / 2) 0 ∧
      s.p95_ms = (List.insertionSort (· ≤ ·) lat).getD (lat.length * 95 / 100) 0 ∧
      s.p99_ms = (List.insertionSort (· ≤ ·) lat).getD (lat.length * 99 / 100) 0 := by
  have hne : lat.isEmpty = false := by
    cases lat with
    | nil => exact absurd rfl hlat
    | cons a t => rfl
  have hsorted := List.sorted_insertionSort (· ≤ ·) lat
  have hlen : (List.insertionSort (· ≤ ·) lat).length = lat.length :=
    List.length_insertionSort _ _
  have hpos : 0 < lat.length := List.length_pos.2 hlat
  have hsum : (List.insertionSort (· ≤ ·) lat).sum = lat.sum :=
    (List.perm_insertionSort (· ≤ ·) lat).sum_eq
  refine ⟨{ min_ms := (List.insertionSort (· ≤ ·) lat).min?.getD 0
            max_ms := (List.insertionSort (· ≤ ·) lat).max?.getD 0
            mean_ms := (List.insertionSort (· ≤ ·) lat).sum
              / (((List.insertionSort (· ≤ ·) lat).length : ℚ))
            median_ms := (List.insertionSort (· ≤ ·) lat).getD
              ((List.insertionSort (· ≤ ·) lat).length / 2) 0
            p95_ms := (List.insertionSort (· ≤ ·) lat).getD
              ((List.insertionSort (· ≤ ·) lat).length * 95 / 100) 0
            p99_ms := (List.insertionSort (· ≤ ·) lat).getD
              ((List.insertionSort (· ≤ ·) lat).length * 99 / 100) 0 },
    ?_, hsorted, hlen, ?_, ?_, ?_, ?_, ?_, ?_, ?_, ?_, ?_⟩
  · simp only [latency_stats, hne, Bool.false_eq_true, if_false]
  · exact Nat.div_lt_self hpos (by norm_num)
  · rw [Nat.div_lt_iff_lt_mul (by norm_num : (0:Nat) < 100)]
    omega
  · rw [Nat.div_lt_iff_lt_mul (by norm_num : (0:Nat) < 100)]
    omega
  · exact sorted_minD _ hsorted
  · rw [sorted_maxD _ hsorted, hlen]
  · rw [hsum, hlen]
  · rw [hlen]
  · rw [hlen]
  · rw [hlen]

/-- C5 witness: the indexing facts instantiated at the concrete collection
`[10, 20, 30, 40, 50]`. -/
theorem latency_summary_indexing_witness :
    ([10, 20, 30, 40, 50] : List ℚ) ≠ [] ∧
    (∃ s, latency_stats [10, 20, 30, 40, 50] = some s ∧
      (List.insertionSort (· ≤ ·) ([10, 20, 30, 40, 50] : List ℚ)).Sorted (· ≤ ·) ∧
      (List.insertionSort (· ≤ ·) ([10, 20, 30, 40, 50] : List ℚ)).length
        = ([10, 20, 30, 40, 50] : List ℚ).length ∧
      ([10, 20, 30, 40, 50] : List ℚ).length / 2
        < ([10, 20, 30, 40, 50] : List ℚ).length ∧
      ([10, 20, 30, 40, 50] : List ℚ).length * 95 / 100
        < ([10, 20, 30, 40, 50] : List ℚ).length ∧
      ([10, 20, 30, 40, 50] : List ℚ).length * 99 / 100
        < ([10, 20, 30, 40, 50] : List ℚ).length ∧
      s.min_ms = (List.insertionSort (· ≤ ·) ([10, 20, 30, 40, 50] : List ℚ)).getD 0 0 ∧
      s.max_ms = (List.insertionSort (· ≤ ·) ([10, 20, 30, 40, 50] : List ℚ)).getD
        (([10, 20, 30, 40, 50] : List ℚ).length - 1) 0 ∧
      s.mean_ms = ([10, 20, 30, 40, 50] : List ℚ).sum
        / (([10, 20, 30, 40, 50] : List ℚ).length : ℚ) ∧
      s.median_ms = (List.insertionSort (· ≤ ·) ([10, 20, 30, 40, 50] : List ℚ)).getD
        (([10, 20, 30, 40, 50] : List ℚ).length / 2) 0 ∧
      s.p95_ms = (List.insertionSort (· ≤ ·) ([10, 20, 30, 40, 50] : List ℚ)).getD
        (([10, 20, 30, 40, 50] : List ℚ).length * 95 / 100) 0 ∧
      s.p99_ms = (List.insertionSort (· ≤ ·) ([10, 20, 30, 40, 50] : List ℚ)).getD
        (([10, 20, 30, 40, 50] : List ℚ).length * 99 / 100) 0) :=
  ⟨by decide, latency_summary_indexing [10, 20, 30, 40, 50] (by decide)⟩

/-- C6 counterexample: for latencies `[10, 20, 30, 40, 50]` the computed
median is the element at index 5 / 2 = 2 of the sorted list, which is 30,
not 50 as claimed. -/
theorem median_of_five_is_thirty :
    (latency_stats [10, 20, 30, 40, 50]).map (fun s => s.median_ms)
      = some 30 ∧
    (30 : ℚ) ≠ 50 :=
  ⟨by decide, by decide⟩

/-- C6 amended: for the input latency list `[10, 20, 30, 40, 50]` (n = 5) the
computed summary has median = 30 (taken at index 5 / 2 = 2 of the sorted
list), p95 = 50 (index ⌊5 * 0.95⌋ = 4) and p99 = 50 (index ⌊5 * 0.99⌋ = 4). -/
theorem five_latency_percentiles :
    (latency_stats [10, 20, 30, 40, 50]).map
        (fun s => (s.median_ms, s.p95_ms, s.p99_ms))
      = some (30, 50, 50) := by
  decide

/-- C7: with zero requests collected, `generate_reports` is total and safe:
the latency block is the absent value, the success rate evaluates to 0 behind
the `max(1, total)` guard (no zero divisor), and the status-code distribution
table is empty (its guarded percentage branch is never taken). -/
theorem empty_report_safe (st : MState)
    (h1 : st.stats.total_requests = 0)
    (h2 : st.stats.successful_requests = 0)
    (h3 : st.stats.response_times = [])
    (h4 : st.stats.status_codes = []) :
    (generate_reports st).1.latency_statistics = none ∧
    (generate_reports st).1.success_rate_percent = 0 ∧
    (generate_reports st).2 = [] := by
  refine ⟨?_, ?_, ?_⟩
  · simp [generate_reports, latency_stats, h3]
  · simp [generate_reports, success_rate_percent, h1, h2]
  · simp [generate_reports, csvRows, h4, histSum, List.insertionSort]

/-- C7 witness: the empty-session safety facts at the initial state. -/
theorem empty_report_safe_witness :
    (initState.stats.total_requests = 0 ∧
     initState.stats.successful_requests = 0 ∧
     initState.stats.response_times = [] ∧
     initState.stats.status_codes = []) ∧
    ((generate_reports initState).1.latency_statistics = none ∧
     (generate_reports initState).1.success_rate_percent = 0 ∧
     (generate_reports initState).2 = []) :=
  ⟨⟨rfl, rfl, rfl, rfl⟩, empty_report_safe initState rfl rfl rfl rfl⟩

end AnoMod
